import Mathlib

/-!
Verification of the ProBrush OTP server (src/server.js and
src/unnamed/part_001) against its specification.

The server keeps one OTP record per user identifier. Two storage backings
appear in the sources: the in-memory `Map` of src/server.js (whose
verify handler deletes the record on a successful match) and the
JSON-file backing of src/unnamed/part_001 (whose `verifyOTP` never
rewrites the file). Both are embedded below, together with the code
generator `Math.floor(100000 + Math.random() * 900000).toString()`.
-/

namespace ProBrush

/-- An OTP record as stored by the server: `{ otp, expires }`
(src/server.js line 27 and line 48; src/unnamed/part_001 line 67).
`expires` is a `Date.now()`-style millisecond timestamp. -/
structure OtpRec where
  otp : String
  expires : Nat
deriving Repr, DecidableEq

/-- The record table keyed by uid: the JS `Map` of src/server.js line 27,
or the parsed JSON object of the OTP file in src/unnamed/part_001. A JS
map or object holds at most one entry per key, so it is a function from
uid to an optional record. -/
abbrev Store := String → Option OtpRec

/-- The empty table (`new Map()`, or the `\x7b\x7d` of a missing file). -/
def Store.empty : Store := fun _ => none

/-- `otpStore.set(uid, rec)` respectively `otps[uid] = rec`: key update,
overwriting any previous entry under the same key. -/
def Store.set (s : Store) (uid : String) (r : OtpRec) : Store :=
  fun u => if u = uid then some r else s u

/-- `otpStore.delete(uid)` (src/server.js line 114). -/
def Store.delete (s : Store) (uid : String) : Store :=
  fun u => if u = uid then none else s u

/-- The `/verify-otp` handler of src/server.js (lines 103-121): look up
the record for `uid`; reject when absent; reject when
`Date.now() > record.expires`; on an exact string match delete the
record and report success; on a mismatch leave the store unchanged.
Returns the valid flag together with the updated store. -/
def verifyHandler (s : Store) (uid code : String) (now : Nat) : Bool × Store :=
  match s uid with
  | none => (false, s)
  | some r =>
    if now > r.expires then (false, s)
    else if r.otp = code then (true, Store.delete s uid)
    else (false, s)

/-- The issuing step of the `/send-otp` handler of src/server.js
(lines 46-48): `expires = Date.now() + ttl; otpStore.set(uid, otp, expires)`,
where `ttl` stands for `OTP_TTL_MINUTES * 60 * 1000`. -/
def issue (s : Store) (uid otp : String) (now ttl : Nat) : Store :=
  Store.set s uid ⟨otp, now + ttl⟩

/-- The `/send-otp` handler of src/server.js (lines 41-95): the record is
stored first, then mail delivery is attempted; a delivery failure is
reported to the caller with status 500 but the stored record is not
rolled back. `delivered` is the outcome of the notifier call; the result
is the updated store together with the success response. -/
def sendOtpHandler (s : Store) (uid otp : String) (now ttl : Nat)
    (delivered : Bool) : Store × Bool :=
  let s2 := issue s uid otp now ttl
  (s2, delivered)

/-- `readOTPs()` of src/unnamed/part_001 (lines 55-63): read and parse
the OTP file; a missing or empty file parses as the empty map, and any
read or parse fault is caught and the empty map is returned. `content`
is what the file actually holds and `fault` injects a storage read
fault. -/
def readOTPs (content : Store) (fault : Bool) : Store :=
  if fault then Store.empty else content

/-- `saveOTP(uid, otp)` of src/unnamed/part_001 (lines 65-69): read the
file and rewrite it with `otps[uid] = ( otp, Date.now() + OTP_TTL )`. -/
def saveOTP (content : Store) (fault : Bool) (uid otp : String)
    (now ttl : Nat) : Store :=
  Store.set (readOTPs content fault) uid ⟨otp, now + ttl⟩

/-- `verifyOTP(uid, code)` of src/unnamed/part_001 (lines 71-77): read
the file, return false when no record exists for `uid` or when
`Date.now() > rec.expires`, otherwise return `rec.otp === code`. The
file is never rewritten, so a successful verification does not consume
the record. -/
def verifyOTP (content : Store) (fault : Bool) (uid code : String)
    (now : Nat) : Bool :=
  match readOTPs content fault uid with
  | none => false
  | some r => if now > r.expires then false else r.otp == code

/-- The `/send-otp` handler of src/unnamed/part_001 (lines 109-144):
generate, save to the file, then attempt SMTP delivery; on a delivery
failure respond 500 without undoing the save. Returns the new file
content together with the success response. -/
def sendOtpFile (content : Store) (fault : Bool) (uid otp : String)
    (now ttl : Nat) (delivered : Bool) : Store × Bool :=
  (saveOTP content fault uid otp now ttl, delivered)

/-- `generateOTP()` (src/unnamed/part_001 lines 51-53; src/server.js
line 46): the numeric part `Math.floor(100000 + Math.random() * 900000)`,
with `Math.random()` modelled as a uniform rational `r` in `[0,1)`. -/
def generateOTPNum (r : ℚ) : ℤ := ⌊(100000 : ℚ) + r * 900000⌋

/-- `.toString()` applied to the generated number. -/
def generateOTP (r : ℚ) : String := toString (generateOTPNum r).toNat

/-- C1: Verify accepts iff a record exists for the uid, it is unexpired
(`now ≤ expires`), and the candidate matches the stored code exactly.
In the in-memory handler a consumed record has been deleted, so only
unconsumed records occur in the store and the record-exists condition
subsumes the not-already-consumed condition; the file-backed `verifyOTP`
never consumes, so the condition is vacuous there. In particular, when
`now > expires` both return invalid even for the exact correct code. -/
theorem verify_accepts_iff (s : Store) (uid code : String) (now : Nat) :
    ((verifyHandler s uid code now).1 = true ↔
      ∃ r, s uid = some r ∧ now ≤ r.expires ∧ r.otp = code) ∧
    (verifyOTP s false uid code now = true ↔
      ∃ r, s uid = some r ∧ now ≤ r.expires ∧ r.otp = code) := by
  constructor
  · unfold verifyHandler
    cases h : s uid with
    | none => simp [h]
    | some r =>
      by_cases hexp : now > r.expires
      · simp only [h, if_pos hexp]
        simp only [Option.some.injEq]
        constructor
        · intro hfalse; cases hfalse
        · rintro ⟨r2, rfl, hle, _⟩; omega
      · by_cases hc : r.otp = code
        · simp only [h, if_neg hexp, if_pos hc, Option.some.injEq]
          constructor
          · intro _; exact ⟨r, rfl, by omega, hc⟩
          · intro _; trivial
        · simp only [h, if_neg hexp, if_neg hc, Option.some.injEq]
          constructor
          · intro hfalse; cases hfalse
          · rintro ⟨r2, rfl, _, hcode⟩; exact absurd hcode hc
  · unfold verifyOTP readOTPs
    simp only [if_neg Bool.false_ne_true]
    cases h : s uid with
    | none => simp [h]
    | some r =>
      by_cases hexp : now > r.expires
      · simp only [if_pos hexp]
        constructor
        · intro hfalse; cases hfalse
        · rintro ⟨r2, hr2, hle, _⟩
          cases hr2; omega
      · simp only [if_neg hexp, beq_iff_eq]
        constructor
        · intro hc; exact ⟨r, rfl, by omega, hc⟩
        · rintro ⟨r2, hr2, _, hcode⟩
          cases hr2; exact hcode

/-- C2 counterexample: the file-backed `verifyOTP` of src/unnamed/part_001
does not consume the record on success. With the file holding a live
record for uid u1 (code 123456, expires 600000), a first Verify at time 0
returns valid AND a second Verify with the same code at the later time 1
still returns valid; `verifyOTP` never rewrites the file, so the file
content at the second call is the same. The claim says the second call
must return invalid. -/
theorem verify_single_use_cex :
    verifyOTP (Store.set Store.empty "u1" ⟨"123456", 600000⟩) false
        "u1" "123456" 0 = true ∧
    verifyOTP (Store.set Store.empty "u1" ⟨"123456", 600000⟩) false
        "u1" "123456" 1 = true := by
  constructor <;> rfl

/-- C2 amended: for the in-memory handler of src/server.js a successful
verification deletes the record, so a second Verify for the same uid with
the same code, at any later time, returns invalid. -/
theorem verify_single_use_mem (s : Store) (uid code : String)
    (now now2 : Nat) (h : (verifyHandler s uid code now).1 = true) :
    (verifyHandler (verifyHandler s uid code now).2 uid code now2).1 = false := by
  cases hrec : s uid with
  | none => simp [verifyHandler, hrec] at h
  | some r =>
    by_cases hexp : now > r.expires
    · simp [verifyHandler, hrec, hexp] at h
    · by_cases hc : r.otp = code
      · have h2 : (verifyHandler s uid code now).2 = Store.delete s uid := by
          simp [verifyHandler, hrec, hexp, hc]
        have hnone : Store.delete s uid uid = none := by
          simp [Store.delete]
        rw [h2]
        simp [verifyHandler, hnone]
      · simp [verifyHandler, hrec, hexp, hc] at h

/-- Witness for C2 amended at a concrete store. -/
theorem verify_single_use_mem_witness :
    (verifyHandler
      (verifyHandler (Store.set Store.empty "u9" ⟨"654321", 100⟩)
        "u9" "654321" 0).2 "u9" "654321" 7).1 = false :=
  verify_single_use_mem (Store.set Store.empty "u9" ⟨"654321", 100⟩)
    "u9" "654321" 0 7 (by rfl)

/-- Shared bounds for the generator: for a random input in `[0,1)` the
generated value lies in `[100000, 999999]`. -/
theorem generateOTPNum_bounds (r : ℚ) (h0 : 0 ≤ r) (h1 : r < 1) :
    100000 ≤ generateOTPNum r ∧ generateOTPNum r ≤ 999999 := by
  unfold generateOTPNum
  constructor
  · apply Int.le_floor.mpr
    have hnn : (0 : ℚ) ≤ r * 900000 := mul_nonneg h0 (by norm_num)
    push_cast
    linarith
  · have hlt : ⌊(100000 : ℚ) + r * 900000⌋ < 1000000 := by
      apply Int.floor_lt.mpr
      have : r * 900000 < 900000 := by nlinarith
      push_cast
      linarith
    omega

/-- C3 counterexample: the 6-digit code 099999 (numeric value 99999) is
never produced: no random input in `[0,1)` makes the generator return a
value below 100000, so the code space is not the whole 6-digit space and
has only 9 * 10^5 outcomes, not at least 10^6. -/
theorem generate_uniform_cex :
    ¬ ∃ r : ℚ, 0 ≤ r ∧ r < 1 ∧ generateOTPNum r = 99999 := by
  rintro ⟨r, h0, h1, heq⟩
  have hlo := (generateOTPNum_bounds r h0 h1).1
  omega

/-- C3 amended: the generator is uniform over the 900000 values
100000..999999 and over nothing else: every output lies in that range,
and for each integer `n` the random inputs mapped to `n` form exactly the
interval `[(n-100000)/900000, (n-99999)/900000)`, of length `1/900000` —
so all 9 * 10^5 (not 10^6) possible codes are equally likely under a
uniform `[0,1)` source, and codes with a leading zero never occur. -/
theorem generate_uniform :
    (∀ r : ℚ, 0 ≤ r → r < 1 →
      100000 ≤ generateOTPNum r ∧ generateOTPNum r ≤ 999999) ∧
    (∀ (n : ℤ) (r : ℚ),
      generateOTPNum r = n ↔
        ((n : ℚ) - 100000) / 900000 ≤ r ∧ r < ((n : ℚ) - 99999) / 900000) := by
  constructor
  · exact generateOTPNum_bounds
  · intro n r
    unfold generateOTPNum
    rw [Int.floor_eq_iff]
    rw [div_le_iff₀ (by norm_num : (0:ℚ) < 900000),
        lt_div_iff₀ (by norm_num : (0:ℚ) < 900000)]
    constructor
    · rintro ⟨a, b⟩; constructor <;> linarith
    · rintro ⟨a, b⟩; constructor <;> linarith

/-- Witness for C3 amended at r = 1/2 and n = 550000. -/
theorem generate_uniform_witness :
    (100000 ≤ generateOTPNum (1/2) ∧ generateOTPNum (1/2) ≤ 999999) ∧
    (generateOTPNum (1/2) = 550000 ↔
      ((550000 : ℚ) - 100000) / 900000 ≤ 1/2 ∧
        (1/2 : ℚ) < ((550000 : ℚ) - 99999) / 900000) :=
  ⟨generate_uniform.1 (1/2) (by norm_num) (by norm_num),
   generate_uniform.2 550000 (1/2)⟩

/-- C10: for every random input in `[0,1)`, the generated value lies
between 100000 and 999999 inclusive; its decimal representation has
exactly 6 digits, the most significant one nonzero — so a leading zero
never occurs and only the 9 * 10^5 codes 100000..999999 are possible —
and the emitted string has at most 6 characters. -/
theorem generate_range (r : ℚ) (h0 : 0 ≤ r) (h1 : r < 1) :
    100000 ≤ (generateOTPNum r).toNat ∧ (generateOTPNum r).toNat ≤ 999999 ∧
    (Nat.digits 10 (generateOTPNum r).toNat).length = 6 ∧
    (Nat.digits 10 (generateOTPNum r).toNat).getLast? ≠ some 0 ∧
    (generateOTP r).length ≤ 6 := by
  obtain ⟨hlo, hhi⟩ := generateOTPNum_bounds r h0 h1
  have hlo2 : 100000 ≤ (generateOTPNum r).toNat := by omega
  have hhi2 : (generateOTPNum r).toNat ≤ 999999 := by omega
  have hne : (generateOTPNum r).toNat ≠ 0 := by omega
  have h6 : (generateOTPNum r).toNat < 10 ^ 6 := by
    have : (10 : ℕ) ^ 6 = 1000000 := by norm_num
    omega
  refine ⟨hlo2, hhi2, ?_, ?_, ?_⟩
  · rw [Nat.digits_len 10 _ (by norm_num) hne]
    have h5 : (10 : ℕ) ^ 5 ≤ (generateOTPNum r).toNat := by
      have : (10 : ℕ) ^ 5 = 100000 := by norm_num
      omega
    rw [Nat.log_eq_of_pow_le_of_lt_pow h5 h6]
  · have hnil : Nat.digits 10 (generateOTPNum r).toNat ≠ [] :=
      Nat.digits_ne_nil_iff_ne_zero.mpr hne
    rw [List.getLast?_eq_getLast _ hnil]
    simp only [ne_eq, Option.some.injEq]
    exact Nat.getLast_digit_ne_zero 10 hne
  · exact Nat.repr_length _ 6 (by norm_num) h6

/-- C4: issuing stores exactly one record for the uid (key update in a
map), and it overwrites: whatever record was live for `uid` before — in
particular regardless of its remaining expiry — after a second issue the
old code (distinct from the new one) no longer verifies, while the new
code verifies at any time up to its own expiry. This holds for the
in-memory handler of src/server.js and for the file-backed
`saveOTP`/`verifyOTP` of src/unnamed/part_001. -/
theorem issue_overwrites (s content : Store) (uid c1 c2 : String)
    (now now2 ttl : Nat) (hne : c1 ≠ c2) (hlive : now2 ≤ now + ttl) :
    issue s uid c2 now ttl uid = some ⟨c2, now + ttl⟩ ∧
    (verifyHandler (issue s uid c2 now ttl) uid c1 now2).1 = false ∧
    (verifyHandler (issue s uid c2 now ttl) uid c2 now2).1 = true ∧
    verifyOTP (saveOTP content false uid c2 now ttl) false uid c1 now2 = false ∧
    verifyOTP (saveOTP content false uid c2 now ttl) false uid c2 now2 = true := by
  have hget : issue s uid c2 now ttl uid = some ⟨c2, now + ttl⟩ := by
    simp [issue, Store.set]
  have hget2 : saveOTP content false uid c2 now ttl uid = some ⟨c2, now + ttl⟩ := by
    simp [saveOTP, readOTPs, Store.set]
  have hexp : ¬ now2 > now + ttl := by omega
  have hne2 : ¬ c2 = c1 := fun h => hne h.symm
  refine ⟨hget, ?_, ?_, ?_, ?_⟩
  · simp [verifyHandler, hget, hexp, hne2]
  · simp [verifyHandler, hget, hexp]
  · simp [verifyOTP, readOTPs, hget2, hexp, hne2]
  · simp [verifyOTP, readOTPs, hget2, hexp]

/-- Witness for C4 at a concrete store holding a prior live record. -/
theorem issue_overwrites_witness :
    issue (Store.set Store.empty "u1" ⟨"111111", 5000⟩) "u1" "222222" 10 600
        "u1" = some ⟨"222222", 610⟩ ∧
    (verifyHandler (issue (Store.set Store.empty "u1" ⟨"111111", 5000⟩)
        "u1" "222222" 10 600) "u1" "111111" 10).1 = false ∧
    (verifyHandler (issue (Store.set Store.empty "u1" ⟨"111111", 5000⟩)
        "u1" "222222" 10 600) "u1" "222222" 10).1 = true ∧
    verifyOTP (saveOTP (Store.set Store.empty "u1" ⟨"111111", 5000⟩) false
        "u1" "222222" 10 600) false "u1" "111111" 10 = false ∧
    verifyOTP (saveOTP (Store.set Store.empty "u1" ⟨"111111", 5000⟩) false
        "u1" "222222" 10 600) false "u1" "222222" 10 = true :=
  issue_overwrites (Store.set Store.empty "u1" ⟨"111111", 5000⟩)
    (Store.set Store.empty "u1" ⟨"111111", 5000⟩) "u1" "111111" "222222"
    10 10 600 (by decide) (by omega)

/-- C5: freshness — a code just issued for a uid verifies at the issuing
time, for both the in-memory handler and the file-backed variant. -/
theorem issue_fresh (s content : Store) (uid otp : String) (now ttl : Nat)
    (httl : 0 < ttl) :
    (verifyHandler (issue s uid otp now ttl) uid otp now).1 = true ∧
    verifyOTP (saveOTP content false uid otp now ttl) false uid otp now = true := by
  have hexp : ¬ now > now + ttl := by omega
  constructor
  · simp [verifyHandler, issue, Store.set, hexp]
  · simp [verifyOTP, saveOTP, readOTPs, Store.set, hexp]

/-- Witness for C5 on the empty store. -/
theorem issue_fresh_witness :
    (verifyHandler (issue Store.empty "u7" "424242" 1000 600000)
        "u7" "424242" 1000).1 = true ∧
    verifyOTP (saveOTP Store.empty false "u7" "424242" 1000 600000) false
        "u7" "424242" 1000 = true :=
  issue_fresh Store.empty Store.empty "u7" "424242" 1000 600000 (by omega)

/-- C6 counterexample: the OTP file holds a live matching record for u1
(code 123456, unexpired at time 0), the storage read faults, and
`verifyOTP` returns plain `false` — silently invalid although a record
does exist and the handler cannot prove otherwise. `readOTPs` catches
the fault and returns the empty map (src/unnamed/part_001 lines 59-62),
and the result type carries no error channel at all. -/
theorem verify_read_fault_cex :
    verifyOTP (Store.set Store.empty "u1" ⟨"123456", 600000⟩) true
        "u1" "123456" 0 = false := by
  rfl

/-- C6 amended: on a storage read fault `verifyOTP` silently degrades to
invalid for every uid, code and time: `readOTPs` catches the error and
returns the empty map, so the result is plain `false`, indistinguishable
from a wrong or missing code; no distinct loud error is surfaced. -/
theorem verify_read_fault (content : Store) (uid code : String) (now : Nat) :
    verifyOTP content true uid code now = false := rfl

/-- C7: the record is persisted before delivery is attempted and is not
rolled back on a delivery failure: when the notifier fails, the handler
reports failure but the issued code still verifies before expiry, in
both the in-memory and the file-backed handler. -/
theorem send_fail_keeps_code (s content : Store) (uid otp : String)
    (now ttl now2 : Nat) (hlive : now2 ≤ now + ttl) :
    (sendOtpHandler s uid otp now ttl false).2 = false ∧
    (verifyHandler (sendOtpHandler s uid otp now ttl false).1 uid otp now2).1 = true ∧
    (sendOtpFile content false uid otp now ttl false).2 = false ∧
    verifyOTP (sendOtpFile content false uid otp now ttl false).1 false
        uid otp now2 = true := by
  have hexp : ¬ now2 > now + ttl := by omega
  refine ⟨rfl, ?_, rfl, ?_⟩
  · simp [sendOtpHandler, verifyHandler, issue, Store.set, hexp]
  · simp [sendOtpFile, verifyOTP, saveOTP, readOTPs, Store.set, hexp]

/-- Witness for C7 on the empty store. -/
theorem send_fail_keeps_code_witness :
    (sendOtpHandler Store.empty "u3" "777777" 50 600 false).2 = false ∧
    (verifyHandler (sendOtpHandler Store.empty "u3" "777777" 50 600 false).1
        "u3" "777777" 60).1 = true ∧
    (sendOtpFile Store.empty false "u3" "777777" 50 600 false).2 = false ∧
    verifyOTP (sendOtpFile Store.empty false "u3" "777777" 50 600 false).1
        false "u3" "777777" 60 = true :=
  send_fail_keeps_code Store.empty Store.empty "u3" "777777" 50 600 60
    (by omega)

/-- A fault-free read returns the file content unchanged. -/
theorem readOTPs_ok (x : Store) : readOTPs x false = x := rfl

/-- On a candidate different from the stored code the in-memory handler
returns invalid and leaves the store unchanged (also when expired). -/
theorem verifyHandler_wrong (s : Store) (uid w : String) (r : OtpRec)
    (now : Nat) (hrec : s uid = some r) (hw : w ≠ r.otp) :
    verifyHandler s uid w now = (false, s) := by
  have hne : ¬ r.otp = w := fun h => hw h.symm
  by_cases hexp : now > r.expires
  · simp [verifyHandler, hrec, hexp]
  · simp [verifyHandler, hrec, hexp, hne]

/-- C8: a wrong candidate returns invalid and leaves the record live and
unchanged; after any number of wrong guesses the store is still exactly
the same and the correct code still verifies before expiry — there is no
bound on the number of wrong guesses. The file-backed `verifyOTP` also
returns invalid on a mismatch (and never writes at all). -/
theorem wrong_guess_frame (s : Store) (uid : String) (r : OtpRec)
    (ws : List String) (now now2 : Nat) (hrec : s uid = some r)
    (hws : ∀ w ∈ ws, w ≠ r.otp) (hlive : now2 ≤ r.expires) :
    (∀ w ∈ ws, (verifyHandler s uid w now).1 = false) ∧
    ws.foldl (fun st w => (verifyHandler st uid w now).2) s = s ∧
    (verifyHandler s uid r.otp now2).1 = true ∧
    (∀ w ∈ ws, verifyOTP s false uid w now = false) := by
  have hexp2 : ¬ now2 > r.expires := by omega
  refine ⟨?_, ?_, ?_, ?_⟩
  · intro w hw
    rw [verifyHandler_wrong s uid w r now hrec (hws w hw)]
  · induction ws with
    | nil => rfl
    | cons a t ih =>
      have ha : verifyHandler s uid a now = (false, s) :=
        verifyHandler_wrong s uid a r now hrec (hws a (by simp))
      simp only [List.foldl_cons, ha]
      exact ih (fun w hw => hws w (by simp [hw]))
  · simp [verifyHandler, hrec, hexp2]
  · intro w hw
    have hne : ¬ r.otp = w := fun h => (hws w hw) h.symm
    by_cases hexp : now > r.expires
    · simp [verifyOTP, readOTPs, hrec, hexp]
    · simp [verifyOTP, readOTPs, hrec, hexp, hne]

/-- Witness for C8: two wrong guesses against a live record. -/
theorem wrong_guess_frame_witness :
    (∀ w ∈ ["111111", "999999"],
      (verifyHandler (Store.set Store.empty "u1" ⟨"123456", 1000⟩)
        "u1" w 0).1 = false) ∧
    (["111111", "999999"].foldl
      (fun st w => (verifyHandler st "u1" w 0).2)
      (Store.set Store.empty "u1" ⟨"123456", 1000⟩)) =
      Store.set Store.empty "u1" ⟨"123456", 1000⟩ ∧
    (verifyHandler (Store.set Store.empty "u1" ⟨"123456", 1000⟩)
      "u1" "123456" 500).1 = true ∧
    (∀ w ∈ ["111111", "999999"],
      verifyOTP (Store.set Store.empty "u1" ⟨"123456", 1000⟩) false
        "u1" w 0 = false) :=
  wrong_guess_frame (Store.set Store.empty "u1" ⟨"123456", 1000⟩) "u1"
    ⟨"123456", 1000⟩ ["111111", "999999"] 0 500 (by rfl)
    (by decide) (by decide)

/-- C9: isolation — issuing or verifying for one uid leaves the record of
any different uid unchanged, in both variants, and therefore leaves
unchanged whether codes for the other uid validate. -/
theorem uid_isolation (s content : Store) (u1 u2 c code : String)
    (now ttl now2 : Nat) (hne : u1 ≠ u2) :
    issue s u1 c now ttl u2 = s u2 ∧
    (verifyHandler s u1 c now).2 u2 = s u2 ∧
    saveOTP content false u1 c now ttl u2 = content u2 ∧
    (verifyHandler (issue s u1 c now ttl) u2 code now2).1 =
      (verifyHandler s u2 code now2).1 ∧
    verifyOTP (saveOTP content false u1 c now ttl) false u2 code now2 =
      verifyOTP content false u2 code now2 := by
  have hne2 : ¬ u2 = u1 := fun h => hne h.symm
  have h1 : issue s u1 c now ttl u2 = s u2 := by simp [issue, Store.set, hne2]
  have h3 : saveOTP content false u1 c now ttl u2 = content u2 := by
    simp [saveOTP, readOTPs, Store.set, hne2]
  refine ⟨h1, ?_, h3, ?_, ?_⟩
  · cases hrec : s u1 with
    | none => simp [verifyHandler, hrec]
    | some r =>
      by_cases hexp : now > r.expires
      · simp [verifyHandler, hrec, hexp]
      · by_cases hc : r.otp = c
        · simp [verifyHandler, hrec, hexp, hc, Store.delete, hne2]
        · simp [verifyHandler, hrec, hexp, hc]
  · simp only [verifyHandler, h1]
    cases s u2 with
    | none => rfl
    | some r =>
      by_cases hexp : now2 > r.expires
      · simp [hexp]
      · by_cases hc : r.otp = code
        · simp [hexp, hc]
        · simp [hexp, hc]
  · simp only [verifyOTP, readOTPs_ok, h3]

/-- Witness for C9: operations on uid a do not touch the record of uid b. -/
theorem uid_isolation_witness :
    issue (Store.set Store.empty "b" ⟨"333333", 900⟩) "a" "555555" 0 600
        "b" = Store.set Store.empty "b" ⟨"333333", 900⟩ "b" ∧
    (verifyHandler (Store.set Store.empty "b" ⟨"333333", 900⟩)
        "a" "555555" 0).2 "b" = Store.set Store.empty "b" ⟨"333333", 900⟩ "b" ∧
    saveOTP (Store.set Store.empty "b" ⟨"333333", 900⟩) false "a" "555555"
        0 600 "b" = Store.set Store.empty "b" ⟨"333333", 900⟩ "b" ∧
    (verifyHandler (issue (Store.set Store.empty "b" ⟨"333333", 900⟩)
        "a" "555555" 0 600) "b" "333333" 10).1 =
      (verifyHandler (Store.set Store.empty "b" ⟨"333333", 900⟩)
        "b" "333333" 10).1 ∧
    verifyOTP (saveOTP (Store.set Store.empty "b" ⟨"333333", 900⟩) false
        "a" "555555" 0 600) false "b" "333333" 10 =
      verifyOTP (Store.set Store.empty "b" ⟨"333333", 900⟩) false
        "b" "333333" 10 :=
  uid_isolation (Store.set Store.empty "b" ⟨"333333", 900⟩)
    (Store.set Store.empty "b" ⟨"333333", 900⟩) "a" "b" "555555" "333333"
    0 600 10 (by decide)

/-- Witness for C10 at r = 1/3. -/
theorem generate_range_witness :
    100000 ≤ (generateOTPNum (1/3)).toNat ∧
    (generateOTPNum (1/3)).toNat ≤ 999999 ∧
    (Nat.digits 10 (generateOTPNum (1/3)).toNat).length = 6 ∧
    (Nat.digits 10 (generateOTPNum (1/3)).toNat).getLast? ≠ some 0 ∧
    (generateOTP (1/3)).length ≤ 6 :=
  generate_range (1/3) (by norm_num) (by norm_num)

end ProBrush
